import Mathlib

/-!
Shallow embedding of the two orchestration scripts of the phoenix2ax
repository: `export_all_projects.py` and `import_to_arize.py`.

The per-entity exporters and importers are external collaborators; the
orchestrators only observe (a) whether such a call raises, and (b) the
shape and statuses of the value it returns.  Both are modelled by an
explicit outcome environment.  Interactive `input()` prompts are modelled
by answer strings in the environment.  A run result records the sequence
of external calls made, the stage blocks entered, the successful and
failed stage lists, and the process exit code (`sys.exit(1)` when the
failed list is non-empty, a normal return — exit code 0 — otherwise).
-/

namespace Phoenix2Ax

/-- Python truthiness test `not x` for an optional string argument:
`None` and the empty string are falsy. -/
def strFalsy : Option String → Bool
  | none => true
  | some s => s == ""

/-- Model of the Python `str.lower` method: lower each character.
`Char.toLower` lowers ASCII letters, which covers the literals the
orchestrators compare against. -/
def pyLower (s : String) : String :=
  ⟨s.data.map Char.toLower⟩

/-- Model of `input(...).lower() in ["yes", "y"]`, the affirmative-answer
test used by both interactive confirmation prompts. -/
def yesAnswer (s : String) : Bool :=
  pyLower s == "yes" || pyLower s == "y"

/-- One record of a per-entity result list (for example one dataset),
reduced to the only field the orchestrators inspect: `d.get("status")`.
A record with no status key behaves as one whose status is a string that
is none of the recognised statuses. -/
structure ERec where
  status : String
deriving DecidableEq, Repr

/-- The observable outcome of one pipeline run: external calls made in
order, stage blocks entered in order, successful and failed stage name
lists, and the process exit code. -/
structure RunResult (C : Type) where
  calls : List C
  stages : List String
  successful : List String
  failed : List String
  exitCode : Nat
deriving DecidableEq, Repr

/-- One non-interactive pipeline stage: record the external call, record
that the stage block ran, and append the stage name to the successful or
the failed list according to the boolean outcome of the stage body. -/
def appendStage {C : Type} (r : RunResult C) (call : C) (name : String)
    (ok : Bool) : RunResult C :=
  { r with
    calls := r.calls ++ [call]
    stages := r.stages ++ [name]
    successful := if ok then r.successful ++ [name] else r.successful
    failed := if ok then r.failed else r.failed ++ [name] }

@[simp] theorem appendStage_calls {C : Type} (r : RunResult C) (c : C)
    (n : String) (ok : Bool) :
    (appendStage r c n ok).calls = r.calls ++ [c] := rfl

@[simp] theorem appendStage_stages {C : Type} (r : RunResult C) (c : C)
    (n : String) (ok : Bool) :
    (appendStage r c n ok).stages = r.stages ++ [n] := rfl

@[simp] theorem appendStage_successful {C : Type} (r : RunResult C) (c : C)
    (n : String) (ok : Bool) :
    (appendStage r c n ok).successful =
      if ok then r.successful ++ [n] else r.successful := rfl

@[simp] theorem appendStage_failed {C : Type} (r : RunResult C) (c : C)
    (n : String) (ok : Bool) :
    (appendStage r c n ok).failed =
      if ok then r.failed else r.failed ++ [n] := rfl

@[simp] theorem appendStage_exitCode {C : Type} (r : RunResult C) (c : C)
    (n : String) (ok : Bool) :
    (appendStage r c n ok).exitCode = r.exitCode := rfl

@[simp] theorem ite_calls {C : Type} (c : Prop) [Decidable c]
    (a b : RunResult C) : (ite c a b).calls = ite c a.calls b.calls := by
  split <;> rfl

@[simp] theorem ite_stages {C : Type} (c : Prop) [Decidable c]
    (a b : RunResult C) : (ite c a b).stages = ite c a.stages b.stages := by
  split <;> rfl

@[simp] theorem ite_successful {C : Type} (c : Prop) [Decidable c]
    (a b : RunResult C) :
    (ite c a b).successful = ite c a.successful b.successful := by
  split <;> rfl

@[simp] theorem ite_failed {C : Type} (c : Prop) [Decidable c]
    (a b : RunResult C) : (ite c a b).failed = ite c a.failed b.failed := by
  split <;> rfl

/-- Final summary step shared by both scripts: `sys.exit(1)` when the
failed list is non-empty, normal return (exit code 0) otherwise. -/
def finishRun {C : Type} (r : RunResult C) : RunResult C :=
  { r with exitCode := if r.failed.isEmpty then 0 else 1 }

@[simp] theorem finishRun_calls {C : Type} (r : RunResult C) :
    (finishRun r).calls = r.calls := rfl

@[simp] theorem finishRun_stages {C : Type} (r : RunResult C) :
    (finishRun r).stages = r.stages := rfl

@[simp] theorem finishRun_successful {C : Type} (r : RunResult C) :
    (finishRun r).successful = r.successful := rfl

@[simp] theorem finishRun_failed {C : Type} (r : RunResult C) :
    (finishRun r).failed = r.failed := rfl

@[simp] theorem finishRun_exitCode {C : Type} (r : RunResult C) :
    (finishRun r).exitCode = if r.failed.isEmpty then 0 else 1 := rfl

theorem finishRun_exit_iff {C : Type} (r : RunResult C) :
    (finishRun r).exitCode ≠ 0 ↔ (finishRun r).failed ≠ [] := by
  cases h : r.failed <;> simp [finishRun, h]

end Phoenix2Ax

namespace Phoenix2Ax.ExportAllProjects

open Phoenix2Ax

/-- Outcome of a list-shaped exporter call (`export_datasets`,
`export_prompts`): either the call raises, or it returns a list of
per-entity records. -/
inductive ExpOutcome where
  | raises
  | returns (items : List ERec)
deriving DecidableEq, Repr

/-- Outcome of a dict-shaped exporter call (`export_traces`,
`export_annotations`, `export_evaluations`): either the call raises, or
it returns a dict keyed by project name. -/
inductive ExpDictOutcome where
  | raises
  | returns (items : List (String × ERec))
deriving DecidableEq, Repr

/-- The stage body of a list-shaped export stage evaluated to a boolean:
`if results:` is true exactly when the exporter returned (did not raise)
a non-empty list; both an exception and an empty result put the stage on
the failed list. -/
def expOk : ExpOutcome → Bool
  | .raises => false
  | .returns items => !items.isEmpty

/-- The stage body of a dict-shaped export stage evaluated to a boolean:
`if results:` is true exactly when the exporter returned a non-empty
dict. -/
def expDictOk : ExpDictOutcome → Bool
  | .raises => false
  | .returns items => !items.isEmpty

/-- Command line arguments of `export_all_projects.py` that the
orchestrator inspects. -/
structure Args where
  base_url : Option String
  api_key : Option String
  all : Bool
  datasets : Bool
  prompts : Bool
  projects : Bool
  traces : Bool
  annotations : Bool
  evaluations : Bool
deriving DecidableEq, Repr

/-- Behaviour of the five external exporters during one run. -/
structure Env where
  datasets : ExpOutcome
  prompts : ExpOutcome
  traces : ExpDictOutcome
  annotations : ExpDictOutcome
  evaluations : ExpDictOutcome
deriving DecidableEq, Repr

/-- External calls and log events of the export orchestrator. -/
inductive ECall where
  | logMissingUrl
  | logNoTypeSelected
  | exportDatasets
  | exportPrompts
  | exportTraces
  | exportAnnotations
  | exportEvaluations
deriving DecidableEq, Repr

/-- Whether at least one export type was selected (the guard of the
`No export type selected` early return). -/
def selected (args : Args) : Bool :=
  args.all || args.datasets || args.prompts || args.projects
    || args.traces || args.annotations || args.evaluations

/-- `main` of `export_all_projects.py`.  Missing base URL and the empty
flag set return early (exit code 0); otherwise the five stages run in
fixed order, each guarded by its flags, each catching exceptions locally
and recording the stage name in the successful or the failed list; the
run exits 1 exactly when the failed list is non-empty. -/
def main (args : Args) (env : Env) : RunResult ECall :=
  if strFalsy args.base_url then
    ⟨[ECall.logMissingUrl], [], [], [], 0⟩
  else if !selected args then
    ⟨[ECall.logNoTypeSelected], [], [], [], 0⟩
  else
    let r : RunResult ECall := ⟨[], [], [], [], 0⟩
    let r := if args.all || args.datasets then
        appendStage r ECall.exportDatasets "datasets" (expOk env.datasets)
      else r
    let r := if args.all || args.prompts then
        appendStage r ECall.exportPrompts "prompts" (expOk env.prompts)
      else r
    let r := if args.all || args.traces || args.projects then
        appendStage r ECall.exportTraces "traces" (expDictOk env.traces)
      else r
    let r := if args.all || args.annotations then
        appendStage r ECall.exportAnnotations "annotations"
          (expDictOk env.annotations)
      else r
    let r := if args.all || args.evaluations then
        appendStage r ECall.exportEvaluations "evaluations"
          (expDictOk env.evaluations)
      else r
    finishRun r

end Phoenix2Ax.ExportAllProjects

namespace Phoenix2Ax.ImportToArize

open Phoenix2Ax

/-- Outcome of `import_datasets.import_datasets` or
`import_prompts.import_prompts`: the call raises, returns a Python list
of per-entity records, or returns some non-list value (which fails the
`isinstance(result, list)` test in the wrapper). -/
inductive ImpListOutcome where
  | raises
  | returnsList (items : List ERec)
  | returnsOther
deriving DecidableEq, Repr

/-- A value of the trace result dict: either a status dict (with
`value.get("status", "")` modelled as the carried string, the empty
string when the key is missing) or a non-dict value, which the wrapper
skips. -/
inductive TVal where
  | statusDict (status : String)
  | nondict
deriving DecidableEq, Repr

/-- A trace import result value: a dict keyed by project name (plus
possibly the special keys `projects` and `timestamp`), or any other
value — a non-dict or falsy value fails the
`result and isinstance(result, dict) and len(result) > 0` test. -/
inductive TraceResultVal where
  | dict (entries : List (String × TVal))
  | other
deriving DecidableEq, Repr

/-- Outcome of `import_traces.import_traces`: raises or returns a
value. -/
inductive TraceOutcome where
  | raises
  | returns (v : TraceResultVal)
deriving DecidableEq, Repr

/-- State of the trace results file `results/trace_import_results.json`
from a prior attempt, consulted when `import_traces.import_traces`
raises: absent, present but not loadable as JSON, or loadable to a
value. -/
inductive TraceFile where
  | absent
  | unreadable
  | loads (v : TraceResultVal)
deriving DecidableEq, Repr

/-- One project record of an annotation or evaluation import result:
the wrapper inspects only the truthiness of `p.get("success")`. -/
structure PRec where
  success : Bool
deriving DecidableEq, Repr

/-- Outcome of `import_annotations.import_annotations` or
`import_evaluations.import_evaluations`: raises, returns a dict with a
`projects` key holding per-project records, or returns any other value
(which fails the `result and isinstance(result, dict) and "projects" in
result` test). -/
inductive ImpProjOutcome where
  | raises
  | returnsProjects (projs : List PRec)
  | returnsOther
deriving DecidableEq, Repr

/-- Command line arguments of `import_to_arize.py` that the orchestrator
inspects. -/
structure Args where
  api_key : Option String
  space_id : Option String
  all : Bool
  datasets : Bool
  traces : Bool
  annotations : Bool
  evaluations : Bool
  prompts : Bool
  setup_annotations : Bool
deriving DecidableEq, Repr

/-- Behaviour of the external importers, the setup guide and the
operator during one run. -/
structure Env where
  datasets : ImpListOutcome
  prompts : ImpListOutcome
  traces : TraceOutcome
  traceFile : TraceFile
  evaluations : ImpProjOutcome
  annotations : ImpProjOutcome
  setupOk : Bool
  traceAnswer : String
  annotAnswer : String
deriving DecidableEq, Repr

/-- External calls, prompts and log events of the import orchestrator. -/
inductive ICall where
  | logMissingApiKey
  | logMissingSpaceId
  | logNoTypeSelected
  | importDatasets
  | importPrompts
  | importTraces
  | promptTraceConfirm
  | warnEvalSkipped
  | importEvaluations
  | setupAnnotations
  | promptAnnotConfirm
  | warnAnnotSkipped
  | importAnnotations
deriving DecidableEq, Repr

/-- `import_datasets_wrapper`: true exactly when the importer returned a
non-empty list in which the number of records with status `imported`
plus the number with status `already_exists` is positive; an exception,
a non-list and an empty list all give false. -/
def import_datasets_wrapper : ImpListOutcome → Bool
  | .raises => false
  | .returnsOther => false
  | .returnsList items =>
    if items.length > 0 then
      0 < items.countP (fun d => d.status == "imported")
            + items.countP (fun d => d.status == "already_exists")
    else false

/-- `import_prompts_wrapper`: same result counting as the dataset
wrapper (the source duplicates the logic). -/
def import_prompts_wrapper : ImpListOutcome → Bool
  | .raises => false
  | .returnsOther => false
  | .returnsList items =>
    if items.length > 0 then
      0 < items.countP (fun p => p.status == "imported")
            + items.countP (fun p => p.status == "already_exists")
    else false

/-- One entry of the trace result dict counts as a success when its key
is neither `projects` nor `timestamp`, its value is a dict, and that
dict has status `imported` or `skipped`. -/
def traceEntryOk (e : String × TVal) : Bool :=
  if e.1 == "projects" || e.1 == "timestamp" then false
  else match e.2 with
    | .statusDict s => s == "imported" || s == "skipped"
    | .nondict => false

/-- Evaluation of a trace import result value in
`import_traces_wrapper`: the value must be a non-empty dict and contain
at least one successful project entry. -/
def traceResultOk : TraceResultVal → Bool
  | .other => false
  | .dict entries => !entries.isEmpty && 0 < entries.countP traceEntryOk

/-- Whether the trace results file recovers a raised import: it loads to
a value that evaluates as successful. -/
def traceFileRecovers : TraceFile → Bool
  | .loads v => traceResultOk v
  | _ => false

/-- `import_traces_wrapper`: on a normal return the result value is
evaluated directly; when `import_traces.import_traces` raises, the prior
results file is consulted — absent or unreadable gives false, a loadable
value is evaluated like a normal return. -/
def import_traces_wrapper (o : TraceOutcome) (file : TraceFile) : Bool :=
  match o with
  | .returns v => traceResultOk v
  | .raises =>
    match file with
    | .absent => false
    | .unreadable => false
    | .loads v => traceResultOk v

/-- `import_annotations_wrapper` and `import_evaluations_wrapper`: true
exactly when the importer returned a dict with a `projects` key in which
at least one project record has a truthy `success` field. -/
def import_proj_wrapper : ImpProjOutcome → Bool
  | .raises => false
  | .returnsOther => false
  | .returnsProjects projs => 0 < projs.countP (fun p => p.success)

/-- Whether at least one import type was selected (the guard of the
`No import type selected` early return). -/
def selected (args : Args) : Bool :=
  args.all || args.datasets || args.traces || args.annotations
    || args.evaluations || args.prompts || args.setup_annotations

/-- `main` of `import_to_arize.py`.  Missing API key, missing space ID
and the empty flag set return early (exit code 0).  Stages run in the
fixed order datasets, prompts, traces; then, when the traces stage
succeeded in this run and evaluations are requested, the operator is
prompted and a non-affirmative answer clears both `args.evaluations` and
`args.all`; then evaluations; then the annotations block (setup guide,
operator prompt, and the annotations import only on an affirmative
answer), or the setup-only block when just `--setup-annotations` was
given.  The run exits 1 exactly when the failed list is non-empty. -/
def main (args : Args) (env : Env) : RunResult ICall :=
  if strFalsy args.api_key then
    ⟨[ICall.logMissingApiKey], [], [], [], 0⟩
  else if strFalsy args.space_id then
    ⟨[ICall.logMissingSpaceId], [], [], [], 0⟩
  else if !selected args then
    ⟨[ICall.logNoTypeSelected], [], [], [], 0⟩
  else
    let r : RunResult ICall := ⟨[], [], [], [], 0⟩
    let r := if args.all || args.datasets then
        appendStage r ICall.importDatasets "datasets"
          (import_datasets_wrapper env.datasets)
      else r
    let r := if args.all || args.prompts then
        appendStage r ICall.importPrompts "prompts"
          (import_prompts_wrapper env.prompts)
      else r
    let r := if args.all || args.traces then
        appendStage r ICall.importTraces "traces"
          (import_traces_wrapper env.traces env.traceFile)
      else r
    let tracesImported : Bool := decide ("traces" ∈ r.successful)
    let evalRequested : Bool := args.all || args.evaluations
    let prompted : Bool := tracesImported && evalRequested
    let declined : Bool := prompted && !yesAnswer env.traceAnswer
    let r := if prompted then
        { r with calls := r.calls ++ [ICall.promptTraceConfirm]
            ++ (if yesAnswer env.traceAnswer then [] else [ICall.warnEvalSkipped]) }
      else r
    let allFlag : Bool := if declined then false else args.all
    let evalFlag : Bool := if declined then false else args.evaluations
    let r := if allFlag || evalFlag then
        appendStage r ICall.importEvaluations "evaluations"
          (import_proj_wrapper env.evaluations)
      else r
    let r := if allFlag || args.annotations then
        let r := { r with
          calls := r.calls ++ [ICall.setupAnnotations]
          stages := r.stages ++ ["annotations"]
          failed := if env.setupOk then r.failed
            else r.failed ++ ["annotation setup"] }
        let r := { r with calls := r.calls ++ [ICall.promptAnnotConfirm] }
        if yesAnswer env.annotAnswer then
          { r with
            calls := r.calls ++ [ICall.importAnnotations]
            successful := if import_proj_wrapper env.annotations then
                r.successful ++ ["annotations"]
              else r.successful
            failed := if import_proj_wrapper env.annotations then r.failed
              else r.failed ++ ["annotations"] }
        else
          { r with calls := r.calls ++ [ICall.warnAnnotSkipped] }
      else if args.setup_annotations then
        { r with
          calls := r.calls ++ [ICall.setupAnnotations]
          stages := r.stages ++ ["annotation setup"]
          successful := if env.setupOk then
              r.successful ++ ["annotation setup"]
            else r.successful
          failed := if env.setupOk then r.failed
            else r.failed ++ ["annotation setup"] }
      else r
    finishRun r

end Phoenix2Ax.ImportToArize

namespace Phoenix2Ax

theorem ite_append_left {α : Type} (c : Prop) [Decidable c] (l x : List α) :
    (ite c (l ++ x) l) = l ++ ite c x [] := by
  split <;> simp

theorem ite_append_right {α : Type} (c : Prop) [Decidable c] (l x : List α) :
    (ite c l (l ++ x)) = l ++ ite c [] x := by
  split <;> simp

theorem mem_ite_list {α : Type} (a : α) (c : Prop) [Decidable c]
    (l1 l2 : List α) :
    a ∈ (ite c l1 l2) ↔ (c ∧ a ∈ l1) ∨ (¬c ∧ a ∈ l2) := by
  split <;> simp_all

theorem countP_or_pos {α : Type} (p q : α → Bool) (l : List α) :
    0 < l.countP p + l.countP q ↔ ∃ a ∈ l, p a ∨ q a := by
  have hsplit : 0 < l.countP p + l.countP q ↔
      0 < l.countP p ∨ 0 < l.countP q := by omega
  rw [hsplit, List.countP_pos_iff, List.countP_pos_iff]
  constructor
  · rintro (⟨a, ha, hp⟩ | ⟨a, ha, hq⟩)
    · exact ⟨a, ha, Or.inl hp⟩
    · exact ⟨a, ha, Or.inr hq⟩
  · rintro ⟨a, ha, hp | hq⟩
    · exact Or.inl ⟨a, ha, hp⟩
    · exact Or.inr ⟨a, ha, hq⟩

theorem traceEntryOk_iff (e : String × ImportToArize.TVal) :
    ImportToArize.traceEntryOk e = true ↔
      (e.1 ≠ "projects" ∧ e.1 ≠ "timestamp") ∧
        ∃ s, e.2 = ImportToArize.TVal.statusDict s ∧
          (s = "imported" ∨ s = "skipped") := by
  rcases e with ⟨k, v⟩
  cases v with
  | nondict => simp [ImportToArize.traceEntryOk]
  | statusDict s =>
    by_cases hk : k = "projects" <;> by_cases ht : k = "timestamp" <;>
      simp [ImportToArize.traceEntryOk, hk, ht]

theorem traceResultOk_iff (v : ImportToArize.TraceResultVal) :
    ImportToArize.traceResultOk v = true ↔
      ∃ entries, v = ImportToArize.TraceResultVal.dict entries ∧
        ∃ e ∈ entries, (e.1 ≠ "projects" ∧ e.1 ≠ "timestamp") ∧
          ∃ s, e.2 = ImportToArize.TVal.statusDict s ∧
            (s = "imported" ∨ s = "skipped") := by
  cases v with
  | other => simp [ImportToArize.traceResultOk]
  | dict entries =>
    simp only [ImportToArize.traceResultOk, Bool.and_eq_true,
      decide_eq_true_eq, Bool.not_eq_true']
    rw [List.countP_pos_iff]
    constructor
    · rintro ⟨-, e, he, hok⟩
      exact ⟨entries, rfl, e, he, (traceEntryOk_iff e).mp hok⟩
    · rintro ⟨entries2, heq, e, he, hok⟩
      cases heq
      refine ⟨?_, e, he, (traceEntryOk_iff e).mpr hok⟩
      simp [List.isEmpty_iff]
      rintro rfl
      simp at he

theorem export_stages_plan (args : ExportAllProjects.Args)
    (env : ExportAllProjects.Env)
    (hurl : strFalsy args.base_url = false)
    (hsel : ExportAllProjects.selected args = true) :
    (ExportAllProjects.main args env).stages =
      (if args.all || args.datasets then ["datasets"] else []) ++
      (if args.all || args.prompts then ["prompts"] else []) ++
      (if args.all || args.traces || args.projects then ["traces"] else []) ++
      (if args.all || args.annotations then ["annotations"] else []) ++
      (if args.all || args.evaluations then ["evaluations"] else []) := by
  by_cases h1 : (args.all || args.datasets) = true <;>
  by_cases h2 : (args.all || args.prompts) = true <;>
  by_cases h3 : (args.all || args.traces || args.projects) = true <;>
  by_cases h4 : (args.all || args.annotations) = true <;>
  by_cases h5 : (args.all || args.evaluations) = true <;>
  simp [ExportAllProjects.main, hurl, hsel, h1, h2, h3, h4, h5]

theorem import_stages_plan (args : ImportToArize.Args)
    (env : ImportToArize.Env)
    (hkey : strFalsy args.api_key = false)
    (hspace : strFalsy args.space_id = false)
    (hsel : ImportToArize.selected args = true)
    (hyes : yesAnswer env.traceAnswer = true) :
    (ImportToArize.main args env).stages =
      (if args.all || args.datasets then ["datasets"] else []) ++
      (if args.all || args.prompts then ["prompts"] else []) ++
      (if args.all || args.traces then ["traces"] else []) ++
      (if args.all || args.evaluations then ["evaluations"] else []) ++
      (if args.all || args.annotations then ["annotations"]
        else if args.setup_annotations then ["annotation setup"] else []) := by
  by_cases h1 : (args.all || args.datasets) = true <;>
  by_cases h2 : (args.all || args.prompts) = true <;>
  by_cases h3 : (args.all || args.traces) = true <;>
  by_cases h5 : (args.all || args.evaluations) = true <;>
  by_cases h6 : (args.all || args.annotations) = true <;>
  by_cases h7 : args.setup_annotations = true <;>
  simp [ImportToArize.main, hkey, hspace, hsel, hyes, h1, h2, h3, h5, h6, h7]

theorem expOk_iff (o : ExportAllProjects.ExpOutcome) :
    ExportAllProjects.expOk o = true ↔
      ∃ items, o = ExportAllProjects.ExpOutcome.returns items ∧
        items ≠ [] := by
  cases o <;> simp [ExportAllProjects.expOk]

theorem expDictOk_iff (o : ExportAllProjects.ExpDictOutcome) :
    ExportAllProjects.expDictOk o = true ↔
      ∃ items, o = ExportAllProjects.ExpDictOutcome.returns items ∧
        items ≠ [] := by
  cases o <;> simp [ExportAllProjects.expDictOk]

/-- Export arguments selecting exactly the given entity flags, with a
base URL present. -/
def expArgsOf (d p pj t a e : Bool) : ExportAllProjects.Args :=
  { base_url := some "http://localhost:6006", api_key := none, all := false,
    datasets := d, prompts := p, projects := pj, traces := t,
    annotations := a, evaluations := e }

/-- Import arguments selecting exactly the given entity flags, with
credentials present. -/
def impArgsOf (d t a e p s : Bool) : ImportToArize.Args :=
  { api_key := some "key", space_id := some "space", all := false,
    datasets := d, traces := t, annotations := a, evaluations := e,
    prompts := p, setup_annotations := s }

/-- Claim C7: for each supported entity flag, a run selecting only that
flag (with credentials present) enters exactly the stage block
corresponding to that flag, whatever the external outcomes and operator
answers are.  On the export side `--projects` selects the combined
traces-and-projects stage, recorded as `traces`. -/
theorem C7_single_flag_single_stage :
    ∀ (eenv : ExportAllProjects.Env) (ienv : ImportToArize.Env),
      (ExportAllProjects.main (expArgsOf true false false false false false)
        eenv).stages = ["datasets"] ∧
      (ExportAllProjects.main (expArgsOf false true false false false false)
        eenv).stages = ["prompts"] ∧
      (ExportAllProjects.main (expArgsOf false false true false false false)
        eenv).stages = ["traces"] ∧
      (ExportAllProjects.main (expArgsOf false false false true false false)
        eenv).stages = ["traces"] ∧
      (ExportAllProjects.main (expArgsOf false false false false true false)
        eenv).stages = ["annotations"] ∧
      (ExportAllProjects.main (expArgsOf false false false false false true)
        eenv).stages = ["evaluations"] ∧
      (ImportToArize.main (impArgsOf true false false false false false)
        ienv).stages = ["datasets"] ∧
      (ImportToArize.main (impArgsOf false true false false false false)
        ienv).stages = ["traces"] ∧
      (ImportToArize.main (impArgsOf false false true false false false)
        ienv).stages = ["annotations"] ∧
      (ImportToArize.main (impArgsOf false false false true false false)
        ienv).stages = ["evaluations"] ∧
      (ImportToArize.main (impArgsOf false false false false true false)
        ienv).stages = ["prompts"] ∧
      (ImportToArize.main (impArgsOf false false false false false true)
        ienv).stages = ["annotation setup"] := by
  intro eenv ienv
  refine ⟨?_, ?_, ?_, ?_, ?_, ?_, ?_, ?_, ?_, ?_, ?_, ?_⟩ <;>
    simp [ExportAllProjects.main, ImportToArize.main, expArgsOf, impArgsOf,
      ExportAllProjects.selected, ImportToArize.selected, strFalsy]

/-- Concrete arguments for the C2 counterexample: a run requested via
`--all` alone, with credentials present. -/
def c2Args : ImportToArize.Args :=
  { api_key := some "key", space_id := some "space", all := true,
    datasets := false, traces := false, annotations := false,
    evaluations := false, prompts := false, setup_annotations := false }

/-- Concrete environment for the C2 counterexample: every importer
succeeds, but the operator answers `no` to the post-trace ingestion
confirmation. -/
def c2Env : ImportToArize.Env :=
  { datasets := ImportToArize.ImpListOutcome.returnsList [⟨"imported"⟩],
    prompts := ImportToArize.ImpListOutcome.returnsList [⟨"imported"⟩],
    traces := ImportToArize.TraceOutcome.returns
      (ImportToArize.TraceResultVal.dict
        [("project1", ImportToArize.TVal.statusDict "imported")]),
    traceFile := ImportToArize.TraceFile.absent,
    evaluations := ImportToArize.ImpProjOutcome.returnsProjects [⟨true⟩],
    annotations := ImportToArize.ImpProjOutcome.returnsProjects [⟨true⟩],
    setupOk := true, traceAnswer := "no", annotAnswer := "yes" }

/-- Counterexample to claim C2 as stated: in a run invoked with `--all`
(credentials present) in which the operator declines the post-trace
confirmation, the import pipeline does not execute the evaluations
stage or the annotations stage, so not every stage runs. -/
theorem C2_counterexample :
    (ImportToArize.main c2Args c2Env).stages =
        ["datasets", "prompts", "traces"] ∧
      ImportToArize.ICall.importEvaluations ∉
        (ImportToArize.main c2Args c2Env).calls := by
  constructor
  · rfl
  · decide

/-- Claim C2 as amended: with `--all` (and required arguments present)
the export pipeline always executes the five stages in the fixed order
datasets, prompts, traces+projects, annotations, evaluations, and the
importing pipeline executes datasets, prompts, traces, evaluations,
annotations in that fixed order provided the post-trace ingestion
confirmation, if shown, is answered affirmatively — declining it skips
the evaluations and annotations stages. -/
theorem C2_amended_all_fixed_order :
    (∀ (args : ExportAllProjects.Args) (env : ExportAllProjects.Env),
      strFalsy args.base_url = false → args.all = true →
      (ExportAllProjects.main args env).stages =
        ["datasets", "prompts", "traces", "annotations", "evaluations"]) ∧
    (∀ (args : ImportToArize.Args) (env : ImportToArize.Env),
      strFalsy args.api_key = false → strFalsy args.space_id = false →
      args.all = true → yesAnswer env.traceAnswer = true →
      (ImportToArize.main args env).stages =
        ["datasets", "prompts", "traces", "evaluations", "annotations"]) := by
  constructor
  · intro args env hurl hall
    rw [export_stages_plan args env hurl
      (by simp [ExportAllProjects.selected, hall])]
    simp [hall]
  · intro args env hkey hspace hall hyes
    rw [import_stages_plan args env hkey hspace
      (by simp [ImportToArize.selected, hall]) hyes]
    simp [hall]

/-- Concrete arguments for the C2 witness: an export run with `--all`. -/
def c2wExpArgs : ExportAllProjects.Args :=
  { base_url := some "http://localhost:6006", api_key := none, all := true,
    datasets := false, prompts := false, projects := false, traces := false,
    annotations := false, evaluations := false }

/-- Concrete environment for the C2 witness export run. -/
def c2wExpEnv : ExportAllProjects.Env :=
  { datasets := ExportAllProjects.ExpOutcome.raises,
    prompts := ExportAllProjects.ExpOutcome.returns [⟨"exported"⟩],
    traces := ExportAllProjects.ExpDictOutcome.raises,
    annotations := ExportAllProjects.ExpDictOutcome.returns
      [("project1", ⟨"exported"⟩)],
    evaluations := ExportAllProjects.ExpDictOutcome.raises }

/-- Concrete arguments for the C2 witness: an import run with `--all`. -/
def c2wImpArgs : ImportToArize.Args :=
  { api_key := some "key", space_id := some "space", all := true,
    datasets := false, traces := false, annotations := false,
    evaluations := false, prompts := false, setup_annotations := false }

/-- Concrete environment for the C2 witness import run: the operator
answers `Yes` to the post-trace confirmation. -/
def c2wImpEnv : ImportToArize.Env :=
  { datasets := ImportToArize.ImpListOutcome.returnsList [⟨"imported"⟩],
    prompts := ImportToArize.ImpListOutcome.raises,
    traces := ImportToArize.TraceOutcome.returns
      (ImportToArize.TraceResultVal.dict
        [("project1", ImportToArize.TVal.statusDict "imported")]),
    traceFile := ImportToArize.TraceFile.absent,
    evaluations := ImportToArize.ImpProjOutcome.returnsProjects [⟨true⟩],
    annotations := ImportToArize.ImpProjOutcome.raises,
    setupOk := true, traceAnswer := "Yes", annotAnswer := "no" }

theorem C2_amended_witness :
    strFalsy c2wExpArgs.base_url = false ∧ c2wExpArgs.all = true ∧
    strFalsy c2wImpArgs.api_key = false ∧
    strFalsy c2wImpArgs.space_id = false ∧ c2wImpArgs.all = true ∧
    yesAnswer c2wImpEnv.traceAnswer = true ∧
    (ExportAllProjects.main c2wExpArgs c2wExpEnv).stages =
      ["datasets", "prompts", "traces", "annotations", "evaluations"] ∧
    (ImportToArize.main c2wImpArgs c2wImpEnv).stages =
      ["datasets", "prompts", "traces", "evaluations", "annotations"] :=
  ⟨by decide, rfl, by decide, by decide, rfl, by decide,
    C2_amended_all_fixed_order.1 c2wExpArgs c2wExpEnv (by decide) rfl,
    C2_amended_all_fixed_order.2 c2wImpArgs c2wImpEnv (by decide) (by decide)
      rfl (by decide)⟩

/-- Claim C3: for every run of either pipeline, the process exit code is
non-zero if and only if at least one stage was recorded in the failed
list.  This holds on every control path: the early returns leave both
the failed list empty and the exit code zero, and the summary step exits
1 exactly when the failed list is non-empty. -/
theorem C3_exit_nonzero_iff_failed :
    (∀ (args : ExportAllProjects.Args) (env : ExportAllProjects.Env),
      (ExportAllProjects.main args env).exitCode ≠ 0 ↔
        (ExportAllProjects.main args env).failed ≠ []) ∧
    (∀ (args : ImportToArize.Args) (env : ImportToArize.Env),
      (ImportToArize.main args env).exitCode ≠ 0 ↔
        (ImportToArize.main args env).failed ≠ []) := by
  refine ⟨fun args env => ?_, fun args env => ?_⟩
  · unfold ExportAllProjects.main
    split
    · simp
    · split
      · simp
      · exact finishRun_exit_iff _
  · unfold ImportToArize.main
    split
    · simp
    · split
      · simp
      · split
        · simp
        · exact finishRun_exit_iff _

/-- Claim C8: the dataset and prompt import wrappers treat the status
`already_exists` as success equally with `imported`: each returns true
exactly when the importer returned without exception a non-empty list
with at least one entry whose status is `imported` or
`already_exists`. -/
theorem C8_already_exists_is_success :
    ∀ o : ImportToArize.ImpListOutcome,
      (ImportToArize.import_datasets_wrapper o = true ↔
        ∃ items, o = ImportToArize.ImpListOutcome.returnsList items ∧
          items ≠ [] ∧ ∃ d ∈ items,
            d.status = "imported" ∨ d.status = "already_exists") ∧
      (ImportToArize.import_prompts_wrapper o = true ↔
        ∃ items, o = ImportToArize.ImpListOutcome.returnsList items ∧
          items ≠ [] ∧ ∃ d ∈ items,
            d.status = "imported" ∨ d.status = "already_exists") := by
  intro o
  cases o with
  | raises =>
    simp [ImportToArize.import_datasets_wrapper,
      ImportToArize.import_prompts_wrapper]
  | returnsOther =>
    simp [ImportToArize.import_datasets_wrapper,
      ImportToArize.import_prompts_wrapper]
  | returnsList items =>
    have hcount := countP_or_pos
      (fun d : ERec => d.status == "imported")
      (fun d : ERec => d.status == "already_exists") items
    constructor <;>
    · simp only [ImportToArize.import_datasets_wrapper,
        ImportToArize.import_prompts_wrapper]
      by_cases hlen : items.length > 0
      · simp only [hlen, if_pos, decide_eq_true_eq]
        rw [hcount]
        constructor
        · rintro ⟨d, hd, hor⟩
          refine ⟨items, rfl, ?_, d, hd, ?_⟩
          · rintro rfl; simp at hd
          · simpa using hor
        · rintro ⟨items2, heq, -, d, hd, hor⟩
          cases heq
          exact ⟨d, hd, by simpa using hor⟩
      · have : items = [] := by
          cases items with
          | nil => rfl
          | cons a l => simp at hlen
        subst this
        simp

/-- Claim C9: when `import_traces.import_traces` raises, the traces
importing wrapper recovers from the prior results file: a loadable file is
used exactly like a normal return (true exactly when it yields a
non-empty dict with at least one project entry of status `imported` or
`skipped`), while an absent or unreadable file makes the wrapper return
false. -/
theorem C9_trace_results_file_recovery :
    (∀ v : ImportToArize.TraceResultVal,
      ImportToArize.import_traces_wrapper ImportToArize.TraceOutcome.raises
          (ImportToArize.TraceFile.loads v) = true ↔
        ∃ entries, v = ImportToArize.TraceResultVal.dict entries ∧
          ∃ e ∈ entries, (e.1 ≠ "projects" ∧ e.1 ≠ "timestamp") ∧
            ∃ s, e.2 = ImportToArize.TVal.statusDict s ∧
              (s = "imported" ∨ s = "skipped")) ∧
    ImportToArize.import_traces_wrapper ImportToArize.TraceOutcome.raises
      ImportToArize.TraceFile.absent = false ∧
    ImportToArize.import_traces_wrapper ImportToArize.TraceOutcome.raises
      ImportToArize.TraceFile.unreadable = false := by
  refine ⟨fun v => ?_, rfl, rfl⟩
  exact traceResultOk_iff v

set_option maxHeartbeats 1600000 in
/-- Claim C10: in the export pipeline a requested stage is recorded
successful exactly when its exporter returns (without raising) a
non-empty result collection, whatever the per-entity statuses inside
it, and recorded failed exactly otherwise (exception or empty
result). -/
theorem C10_export_success_iff_truthy_result :
    ∀ (args : ExportAllProjects.Args) (env : ExportAllProjects.Env),
      strFalsy args.base_url = false →
      ExportAllProjects.selected args = true →
      ((args.all || args.datasets) = true →
        (("datasets" ∈ (ExportAllProjects.main args env).successful ↔
            ∃ items, env.datasets =
              ExportAllProjects.ExpOutcome.returns items ∧ items ≠ []) ∧
         ("datasets" ∈ (ExportAllProjects.main args env).failed ↔
            ¬ ∃ items, env.datasets =
              ExportAllProjects.ExpOutcome.returns items ∧ items ≠ []))) ∧
      ((args.all || args.prompts) = true →
        (("prompts" ∈ (ExportAllProjects.main args env).successful ↔
            ∃ items, env.prompts =
              ExportAllProjects.ExpOutcome.returns items ∧ items ≠ []) ∧
         ("prompts" ∈ (ExportAllProjects.main args env).failed ↔
            ¬ ∃ items, env.prompts =
              ExportAllProjects.ExpOutcome.returns items ∧ items ≠ []))) ∧
      ((args.all || args.traces || args.projects) = true →
        (("traces" ∈ (ExportAllProjects.main args env).successful ↔
            ∃ items, env.traces =
              ExportAllProjects.ExpDictOutcome.returns items ∧ items ≠ []) ∧
         ("traces" ∈ (ExportAllProjects.main args env).failed ↔
            ¬ ∃ items, env.traces =
              ExportAllProjects.ExpDictOutcome.returns items ∧ items ≠ []))) ∧
      ((args.all || args.annotations) = true →
        (("annotations" ∈ (ExportAllProjects.main args env).successful ↔
            ∃ items, env.annotations =
              ExportAllProjects.ExpDictOutcome.returns items ∧ items ≠ []) ∧
         ("annotations" ∈ (ExportAllProjects.main args env).failed ↔
            ¬ ∃ items, env.annotations =
              ExportAllProjects.ExpDictOutcome.returns items ∧ items ≠ []))) ∧
      ((args.all || args.evaluations) = true →
        (("evaluations" ∈ (ExportAllProjects.main args env).successful ↔
            ∃ items, env.evaluations =
              ExportAllProjects.ExpDictOutcome.returns items ∧ items ≠ []) ∧
         ("evaluations" ∈ (ExportAllProjects.main args env).failed ↔
            ¬ ∃ items, env.evaluations =
              ExportAllProjects.ExpDictOutcome.returns items ∧ items ≠ []))) := by
  intro args env hurl hsel
  refine ⟨fun hg => ⟨?_, ?_⟩, fun hg => ⟨?_, ?_⟩, fun hg => ⟨?_, ?_⟩,
    fun hg => ⟨?_, ?_⟩, fun hg => ⟨?_, ?_⟩⟩ <;>
  [rw [← expOk_iff];
   rw [show (¬ ∃ items, env.datasets =
        ExportAllProjects.ExpOutcome.returns items ∧ items ≠ []) ↔
        ExportAllProjects.expOk env.datasets = false by
      rw [← expOk_iff]; simp];
   rw [← expOk_iff];
   rw [show (¬ ∃ items, env.prompts =
        ExportAllProjects.ExpOutcome.returns items ∧ items ≠ []) ↔
        ExportAllProjects.expOk env.prompts = false by
      rw [← expOk_iff]; simp];
   rw [← expDictOk_iff];
   rw [show (¬ ∃ items, env.traces =
        ExportAllProjects.ExpDictOutcome.returns items ∧ items ≠ []) ↔
        ExportAllProjects.expDictOk env.traces = false by
      rw [← expDictOk_iff]; simp];
   rw [← expDictOk_iff];
   rw [show (¬ ∃ items, env.annotations =
        ExportAllProjects.ExpDictOutcome.returns items ∧ items ≠ []) ↔
        ExportAllProjects.expDictOk env.annotations = false by
      rw [← expDictOk_iff]; simp];
   rw [← expDictOk_iff];
   rw [show (¬ ∃ items, env.evaluations =
        ExportAllProjects.ExpDictOutcome.returns items ∧ items ≠ []) ↔
        ExportAllProjects.expDictOk env.evaluations = false by
      rw [← expDictOk_iff]; simp]] <;>
  simp [ExportAllProjects.main, hurl, hsel, hg,
    ite_append_left, ite_append_right, mem_ite_list] <;>
  simp only [Bool.eq_false_iff] <;> tauto

/-- Concrete arguments for the C10 witness: datasets and evaluations
selected. -/
def c10Args : ExportAllProjects.Args :=
  { base_url := some "http://localhost:6006", api_key := none, all := false,
    datasets := true, prompts := false, projects := false, traces := false,
    annotations := false, evaluations := true }

/-- Concrete environment for the C10 witness: the dataset exporter
returns a non-empty list in which every entry has a failed status; the
evaluation exporter returns an empty dict. -/
def c10Env : ExportAllProjects.Env :=
  { datasets := ExportAllProjects.ExpOutcome.returns [⟨"failed"⟩],
    prompts := ExportAllProjects.ExpOutcome.raises,
    traces := ExportAllProjects.ExpDictOutcome.raises,
    annotations := ExportAllProjects.ExpDictOutcome.raises,
    evaluations := ExportAllProjects.ExpDictOutcome.returns [] }

theorem C10_export_witness :
    strFalsy c10Args.base_url = false ∧
    ExportAllProjects.selected c10Args = true ∧
    (c10Args.all || c10Args.datasets) = true ∧
    (c10Args.all || c10Args.evaluations) = true ∧
    "datasets" ∈ (ExportAllProjects.main c10Args c10Env).successful ∧
    "evaluations" ∈ (ExportAllProjects.main c10Args c10Env).failed := by
  have h := C10_export_success_iff_truthy_result c10Args c10Env
    (by decide) (by decide)
  refine ⟨by decide, by decide, by decide, by decide, ?_, ?_⟩
  · exact (h.1 (by decide)).1.mpr ⟨[⟨"failed"⟩], rfl, by decide⟩
  · refine (h.2.2.2.2 (by decide)).2.mpr ?_
    rintro ⟨items, heq, hne⟩
    simp only [c10Env] at heq
    injection heq with h4
    exact hne h4.symm

/-- Concrete arguments for the C1 counterexample: an import run with no
Arize API key. -/
def c1Args : ImportToArize.Args :=
  { api_key := none, space_id := some "space", all := true, datasets := false,
    traces := false, annotations := false, evaluations := false,
    prompts := false, setup_annotations := false }

/-- Concrete environment for the C1 counterexample. -/
def c1Env : ImportToArize.Env :=
  { datasets := ImportToArize.ImpListOutcome.raises,
    prompts := ImportToArize.ImpListOutcome.raises,
    traces := ImportToArize.TraceOutcome.raises,
    traceFile := ImportToArize.TraceFile.absent,
    evaluations := ImportToArize.ImpProjOutcome.raises,
    annotations := ImportToArize.ImpProjOutcome.raises,
    setupOk := true, traceAnswer := "yes", annotAnswer := "yes" }

/-- Counterexample to claim C1 as stated: with the Arize API key missing
the import run logs the fatal error, attempts no call and runs no stage,
but the process terminates with exit code 0, not 1 — `main` returns
normally instead of calling `sys.exit(1)`. -/
theorem C1_counterexample :
    (ImportToArize.main c1Args c1Env).calls =
        [ImportToArize.ICall.logMissingApiKey] ∧
      (ImportToArize.main c1Args c1Env).stages = [] ∧
      (ImportToArize.main c1Args c1Env).exitCode = 0 ∧
      (ImportToArize.main c1Args c1Env).exitCode ≠ 1 :=
  ⟨rfl, rfl, rfl, by decide⟩

/-- Claim C1 as amended: for every run in which a required argument is
missing (import: no Arize API key or no space ID; export: no Phoenix
base URL), the program logs the fatal error as its only action, runs no
stage, records no failure, and the process terminates with exit code 0
(an early normal return), not 1. -/
theorem C1_amended_missing_required_args :
    (∀ (args : ImportToArize.Args) (env : ImportToArize.Env),
      (strFalsy args.api_key = true ∨ strFalsy args.space_id = true) →
      ((ImportToArize.main args env).calls =
          [ImportToArize.ICall.logMissingApiKey] ∨
        (ImportToArize.main args env).calls =
          [ImportToArize.ICall.logMissingSpaceId]) ∧
      (ImportToArize.main args env).stages = [] ∧
      (ImportToArize.main args env).failed = [] ∧
      (ImportToArize.main args env).exitCode = 0) ∧
    (∀ (args : ExportAllProjects.Args) (env : ExportAllProjects.Env),
      strFalsy args.base_url = true →
      (ExportAllProjects.main args env).calls =
        [ExportAllProjects.ECall.logMissingUrl] ∧
      (ExportAllProjects.main args env).stages = [] ∧
      (ExportAllProjects.main args env).failed = [] ∧
      (ExportAllProjects.main args env).exitCode = 0) := by
  constructor
  · intro args env h
    by_cases hk : strFalsy args.api_key = true
    · simp [ImportToArize.main, hk]
    · have hs : strFalsy args.space_id = true := by tauto
      simp [ImportToArize.main, hk, hs]
  · intro args env h
    simp [ExportAllProjects.main, h]

/-- Concrete arguments for the C1 witness export run: no base URL. -/
def c1wExpArgs : ExportAllProjects.Args :=
  { base_url := none, api_key := none, all := true, datasets := false,
    prompts := false, projects := false, traces := false,
    annotations := false, evaluations := false }

/-- Concrete environment for the C1 witness export run. -/
def c1wExpEnv : ExportAllProjects.Env :=
  { datasets := ExportAllProjects.ExpOutcome.raises,
    prompts := ExportAllProjects.ExpOutcome.raises,
    traces := ExportAllProjects.ExpDictOutcome.raises,
    annotations := ExportAllProjects.ExpDictOutcome.raises,
    evaluations := ExportAllProjects.ExpDictOutcome.raises }

theorem C1_amended_witness :
    (strFalsy c1Args.api_key = true ∨ strFalsy c1Args.space_id = true) ∧
    strFalsy c1wExpArgs.base_url = true ∧
    (ImportToArize.main c1Args c1Env).stages = [] ∧
    (ImportToArize.main c1Args c1Env).exitCode = 0 ∧
    (ExportAllProjects.main c1wExpArgs c1wExpEnv).stages = [] ∧
    (ExportAllProjects.main c1wExpArgs c1wExpEnv).exitCode = 0 := by
  have h1 := C1_amended_missing_required_args.1 c1Args c1Env
    (Or.inl (by decide))
  have h2 := C1_amended_missing_required_args.2 c1wExpArgs c1wExpEnv
    (by decide)
  exact ⟨Or.inl (by decide), by decide, h1.2.1, h1.2.2.2, h2.2.1, h2.2.2.2⟩

/-- Concrete arguments for the C4 counterexample: traces and evaluations
requested. -/
def c4Args : ImportToArize.Args :=
  { api_key := some "key", space_id := some "space", all := false,
    datasets := false, traces := true, annotations := false,
    evaluations := true, prompts := false, setup_annotations := false }

/-- Concrete environment for the C4 counterexample: the traces import
succeeds and the operator answers `YES` (uppercase) to the post-trace
confirmation. -/
def c4Env : ImportToArize.Env :=
  { datasets := ImportToArize.ImpListOutcome.raises,
    prompts := ImportToArize.ImpListOutcome.raises,
    traces := ImportToArize.TraceOutcome.returns
      (ImportToArize.TraceResultVal.dict
        [("project1", ImportToArize.TVal.statusDict "imported")]),
    traceFile := ImportToArize.TraceFile.absent,
    evaluations := ImportToArize.ImpProjOutcome.returnsProjects [⟨true⟩],
    annotations := ImportToArize.ImpProjOutcome.raises,
    setupOk := true, traceAnswer := "YES", annotAnswer := "no" }

/-- Counterexample to claim C4 as stated: the answer `YES` is an answer
other than the literals `yes` and `y`, yet the evaluations import runs
rather than being skipped — the code lowercases the answer before
comparing it against `yes` and `y`. -/
theorem C4_counterexample :
    c4Env.traceAnswer ≠ "yes" ∧ c4Env.traceAnswer ≠ "y" ∧
    ImportToArize.ICall.promptTraceConfirm ∈
      (ImportToArize.main c4Args c4Env).calls ∧
    ImportToArize.ICall.importEvaluations ∈
      (ImportToArize.main c4Args c4Env).calls ∧
    ImportToArize.ICall.warnEvalSkipped ∉
      (ImportToArize.main c4Args c4Env).calls ∧
    "evaluations" ∈ (ImportToArize.main c4Args c4Env).successful := by
  decide

/-- Claim C4 as amended: whenever the traces stage succeeded in the
current run and evaluations are requested, the operator is prompted, and
for every answer whose lowercasing is not `yes` or `y` the importing of
evaluations is skipped with a warning while the stage is neither run nor
added to the failed list. -/
theorem C4_amended_decline_skips_evaluations :
    ∀ (args : ImportToArize.Args) (env : ImportToArize.Env),
      strFalsy args.api_key = false → strFalsy args.space_id = false →
      (args.all || args.traces) = true →
      ImportToArize.import_traces_wrapper env.traces env.traceFile = true →
      (args.all || args.evaluations) = true →
      yesAnswer env.traceAnswer = false →
      ImportToArize.ICall.promptTraceConfirm ∈
        (ImportToArize.main args env).calls ∧
      ImportToArize.ICall.warnEvalSkipped ∈
        (ImportToArize.main args env).calls ∧
      ImportToArize.ICall.importEvaluations ∉
        (ImportToArize.main args env).calls ∧
      "evaluations" ∉ (ImportToArize.main args env).stages ∧
      "evaluations" ∉ (ImportToArize.main args env).failed := by
  intro args env hkey hspace htr hwrap heval hans
  have hsel : ImportToArize.selected args = true := by
    simp only [Bool.or_eq_true] at htr
    simp only [ImportToArize.selected, Bool.or_eq_true]
    tauto
  simp [ImportToArize.main, hkey, hspace, hsel, htr, hwrap, heval, hans,
    ite_append_left, ite_append_right, mem_ite_list]

/-- Concrete environment for the C4 witness: like the counterexample
environment but the operator answers `no`. -/
def c4wEnv : ImportToArize.Env :=
  { datasets := ImportToArize.ImpListOutcome.raises,
    prompts := ImportToArize.ImpListOutcome.raises,
    traces := ImportToArize.TraceOutcome.returns
      (ImportToArize.TraceResultVal.dict
        [("project1", ImportToArize.TVal.statusDict "imported")]),
    traceFile := ImportToArize.TraceFile.absent,
    evaluations := ImportToArize.ImpProjOutcome.returnsProjects [⟨true⟩],
    annotations := ImportToArize.ImpProjOutcome.raises,
    setupOk := true, traceAnswer := "no", annotAnswer := "no" }

theorem C4_amended_witness :
    yesAnswer c4wEnv.traceAnswer = false ∧
    ImportToArize.import_traces_wrapper c4wEnv.traces c4wEnv.traceFile
      = true ∧
    ImportToArize.ICall.warnEvalSkipped ∈
      (ImportToArize.main c4Args c4wEnv).calls ∧
    ImportToArize.ICall.importEvaluations ∉
      (ImportToArize.main c4Args c4wEnv).calls ∧
    "evaluations" ∉ (ImportToArize.main c4Args c4wEnv).failed := by
  have h := C4_amended_decline_skips_evaluations c4Args c4wEnv
    (by decide) (by decide) (by decide) (by decide) (by decide) (by decide)
  exact ⟨by decide, by decide, h.2.1, h.2.2.1, h.2.2.2.2⟩

/-- Claim C5: when a run requested via `--all` (annotations and setup
flags unset) has a successful traces import and the operator declines
the post-trace confirmation, the cleared `all` flag also skips the
annotation setup guide, the annotation confirmation prompt and the
annotations import, not only the evaluations stage; the run executes
exactly the stage blocks datasets, prompts, traces. -/
theorem C5_decline_clears_all_flag :
    ∀ (args : ImportToArize.Args) (env : ImportToArize.Env),
      strFalsy args.api_key = false → strFalsy args.space_id = false →
      args.all = true → args.annotations = false →
      args.setup_annotations = false →
      ImportToArize.import_traces_wrapper env.traces env.traceFile = true →
      yesAnswer env.traceAnswer = false →
      ImportToArize.ICall.setupAnnotations ∉
        (ImportToArize.main args env).calls ∧
      ImportToArize.ICall.promptAnnotConfirm ∉
        (ImportToArize.main args env).calls ∧
      ImportToArize.ICall.importAnnotations ∉
        (ImportToArize.main args env).calls ∧
      ImportToArize.ICall.importEvaluations ∉
        (ImportToArize.main args env).calls ∧
      (ImportToArize.main args env).stages =
        ["datasets", "prompts", "traces"] := by
  intro args env hkey hspace hall hann hsetup hwrap hans
  have hsel : ImportToArize.selected args = true := by
    simp [ImportToArize.selected, hall]
  simp [ImportToArize.main, hkey, hspace, hsel, hall, hann, hsetup, hwrap,
    hans, ite_append_left, ite_append_right, mem_ite_list]

/-- Concrete arguments for the C5 witness: a run with `--all` alone. -/
def c5wArgs : ImportToArize.Args :=
  { api_key := some "key", space_id := some "space", all := true,
    datasets := false, traces := false, annotations := false,
    evaluations := false, prompts := false, setup_annotations := false }

/-- Concrete environment for the C5 witness: everything succeeds and the
operator declines the post-trace confirmation. -/
def c5wEnv : ImportToArize.Env :=
  { datasets := ImportToArize.ImpListOutcome.returnsList [⟨"imported"⟩],
    prompts := ImportToArize.ImpListOutcome.returnsList [⟨"imported"⟩],
    traces := ImportToArize.TraceOutcome.returns
      (ImportToArize.TraceResultVal.dict
        [("project1", ImportToArize.TVal.statusDict "imported")]),
    traceFile := ImportToArize.TraceFile.absent,
    evaluations := ImportToArize.ImpProjOutcome.returnsProjects [⟨true⟩],
    annotations := ImportToArize.ImpProjOutcome.returnsProjects [⟨true⟩],
    setupOk := true, traceAnswer := "no", annotAnswer := "yes" }

theorem C5_witness :
    yesAnswer c5wEnv.traceAnswer = false ∧
    ImportToArize.import_traces_wrapper c5wEnv.traces c5wEnv.traceFile
      = true ∧
    ImportToArize.ICall.setupAnnotations ∉
      (ImportToArize.main c5wArgs c5wEnv).calls ∧
    (ImportToArize.main c5wArgs c5wEnv).stages =
      ["datasets", "prompts", "traces"] := by
  have h := C5_decline_clears_all_flag c5wArgs c5wEnv
    (by decide) (by decide) rfl rfl rfl (by decide) (by decide)
  exact ⟨by decide, by decide, h.1, h.2.2.2.2⟩

/-- Concrete arguments for the C6 counterexample: only traces
requested. -/
def c6Args : ImportToArize.Args :=
  { api_key := some "key", space_id := some "space", all := false,
    datasets := false, traces := true, annotations := false,
    evaluations := false, prompts := false, setup_annotations := false }

/-- Concrete environment for the C6 counterexample: the traces importer
raises, but a prior results file loads with one imported project. -/
def c6Env : ImportToArize.Env :=
  { datasets := ImportToArize.ImpListOutcome.raises,
    prompts := ImportToArize.ImpListOutcome.raises,
    traces := ImportToArize.TraceOutcome.raises,
    traceFile := ImportToArize.TraceFile.loads
      (ImportToArize.TraceResultVal.dict
        [("project1", ImportToArize.TVal.statusDict "imported")]),
    evaluations := ImportToArize.ImpProjOutcome.raises,
    annotations := ImportToArize.ImpProjOutcome.raises,
    setupOk := true, traceAnswer := "yes", annotAnswer := "yes" }

/-- Counterexample to claim C6 as stated: the traces importer raises,
yet `traces` is not recorded in the failed list — the wrapper recovers
from the prior results file and records the stage successful, and the
run exits 0. -/
theorem C6_counterexample :
    c6Env.traces = ImportToArize.TraceOutcome.raises ∧
    "traces" ∉ (ImportToArize.main c6Args c6Env).failed ∧
    "traces" ∈ (ImportToArize.main c6Args c6Env).successful ∧
    (ImportToArize.main c6Args c6Env).exitCode = 0 := by
  decide

set_option maxHeartbeats 4000000 in
/-- Claim C6 as amended: a stage whose underlying exporter or importer
raises is caught at the stage boundary and its name is recorded in the
failed list — except the traces import stage, which is instead recorded
successful when a prior trace results file recovers the raised call —
and, provided the post-trace confirmation (when shown) is answered
affirmatively, every requested stage still runs regardless of the
outcomes of earlier stages. -/
theorem C6_amended_raise_recorded_pipeline_continues :
    (∀ (args : ExportAllProjects.Args) (env : ExportAllProjects.Env),
      strFalsy args.base_url = false →
      ExportAllProjects.selected args = true →
      ((args.all || args.datasets) = true →
        env.datasets = ExportAllProjects.ExpOutcome.raises →
        "datasets" ∈ (ExportAllProjects.main args env).failed) ∧
      ((args.all || args.prompts) = true →
        env.prompts = ExportAllProjects.ExpOutcome.raises →
        "prompts" ∈ (ExportAllProjects.main args env).failed) ∧
      ((args.all || args.traces || args.projects) = true →
        env.traces = ExportAllProjects.ExpDictOutcome.raises →
        "traces" ∈ (ExportAllProjects.main args env).failed) ∧
      ((args.all || args.annotations) = true →
        env.annotations = ExportAllProjects.ExpDictOutcome.raises →
        "annotations" ∈ (ExportAllProjects.main args env).failed) ∧
      ((args.all || args.evaluations) = true →
        env.evaluations = ExportAllProjects.ExpDictOutcome.raises →
        "evaluations" ∈ (ExportAllProjects.main args env).failed) ∧
      ((args.all || args.datasets) = true →
        "datasets" ∈ (ExportAllProjects.main args env).stages) ∧
      ((args.all || args.prompts) = true →
        "prompts" ∈ (ExportAllProjects.main args env).stages) ∧
      ((args.all || args.traces || args.projects) = true →
        "traces" ∈ (ExportAllProjects.main args env).stages) ∧
      ((args.all || args.annotations) = true →
        "annotations" ∈ (ExportAllProjects.main args env).stages) ∧
      ((args.all || args.evaluations) = true →
        "evaluations" ∈ (ExportAllProjects.main args env).stages)) ∧
    (∀ (args : ImportToArize.Args) (env : ImportToArize.Env),
      strFalsy args.api_key = false → strFalsy args.space_id = false →
      ImportToArize.selected args = true →
      yesAnswer env.traceAnswer = true →
      ((args.all || args.datasets) = true →
        env.datasets = ImportToArize.ImpListOutcome.raises →
        "datasets" ∈ (ImportToArize.main args env).failed) ∧
      ((args.all || args.prompts) = true →
        env.prompts = ImportToArize.ImpListOutcome.raises →
        "prompts" ∈ (ImportToArize.main args env).failed) ∧
      ((args.all || args.traces) = true →
        env.traces = ImportToArize.TraceOutcome.raises →
        ImportToArize.traceFileRecovers env.traceFile = false →
        "traces" ∈ (ImportToArize.main args env).failed) ∧
      ((args.all || args.evaluations) = true →
        env.evaluations = ImportToArize.ImpProjOutcome.raises →
        "evaluations" ∈ (ImportToArize.main args env).failed) ∧
      ((args.all || args.annotations) = true →
        env.setupOk = false →
        "annotation setup" ∈ (ImportToArize.main args env).failed) ∧
      ((args.all || args.annotations) = true →
        yesAnswer env.annotAnswer = true →
        env.annotations = ImportToArize.ImpProjOutcome.raises →
        "annotations" ∈ (ImportToArize.main args env).failed) ∧
      ((args.all || args.datasets) = true →
        "datasets" ∈ (ImportToArize.main args env).stages) ∧
      ((args.all || args.prompts) = true →
        "prompts" ∈ (ImportToArize.main args env).stages) ∧
      ((args.all || args.traces) = true →
        "traces" ∈ (ImportToArize.main args env).stages) ∧
      ((args.all || args.evaluations) = true →
        "evaluations" ∈ (ImportToArize.main args env).stages) ∧
      ((args.all || args.annotations) = true →
        "annotations" ∈ (ImportToArize.main args env).stages)) := by
  constructor
  · intro args env hurl hsel
    refine ⟨fun hg hr => ?_, fun hg hr => ?_, fun hg hr => ?_,
      fun hg hr => ?_, fun hg hr => ?_, fun hg => ?_, fun hg => ?_,
      fun hg => ?_, fun hg => ?_, fun hg => ?_⟩
    · have hw : ExportAllProjects.expOk env.datasets = false := by
        rw [hr]; rfl
      simp [ExportAllProjects.main, hurl, hsel, hg, hw,
        ite_append_left, ite_append_right, mem_ite_list] <;>
        simp only [Bool.eq_false_iff] <;> tauto
    · have hw : ExportAllProjects.expOk env.prompts = false := by
        rw [hr]; rfl
      simp [ExportAllProjects.main, hurl, hsel, hg, hw,
        ite_append_left, ite_append_right, mem_ite_list] <;>
        simp only [Bool.eq_false_iff] <;> tauto
    · have hw : ExportAllProjects.expDictOk env.traces = false := by
        rw [hr]; rfl
      simp [ExportAllProjects.main, hurl, hsel, hg, hw,
        ite_append_left, ite_append_right, mem_ite_list] <;>
        simp only [Bool.eq_false_iff] <;> tauto
    · have hw : ExportAllProjects.expDictOk env.annotations = false := by
        rw [hr]; rfl
      simp [ExportAllProjects.main, hurl, hsel, hg, hw,
        ite_append_left, ite_append_right, mem_ite_list] <;>
        simp only [Bool.eq_false_iff] <;> tauto
    · have hw : ExportAllProjects.expDictOk env.evaluations = false := by
        rw [hr]; rfl
      simp [ExportAllProjects.main, hurl, hsel, hg, hw,
        ite_append_left, ite_append_right, mem_ite_list] <;>
        simp only [Bool.eq_false_iff] <;> tauto
    all_goals
      rw [export_stages_plan args env hurl hsel]
      simp [hg, mem_ite_list]
  · intro args env hkey hspace hsel hyes
    refine ⟨fun hg hr => ?_, fun hg hr => ?_, fun hg hr hrec => ?_,
      fun hg hr => ?_, fun hg hr => ?_, fun hg hy hr => ?_, fun hg => ?_,
      fun hg => ?_, fun hg => ?_, fun hg => ?_, fun hg => ?_⟩
    · have hw : ImportToArize.import_datasets_wrapper env.datasets
          = false := by rw [hr]; rfl
      simp [ImportToArize.main, hkey, hspace, hsel, hyes, hg, hw,
        ite_append_left, ite_append_right, mem_ite_list] <;>
        simp only [Bool.eq_false_iff] <;> tauto
    · have hw : ImportToArize.import_prompts_wrapper env.prompts
          = false := by rw [hr]; rfl
      simp [ImportToArize.main, hkey, hspace, hsel, hyes, hg, hw,
        ite_append_left, ite_append_right, mem_ite_list] <;>
        simp only [Bool.eq_false_iff] <;> tauto
    · have hw : ImportToArize.import_traces_wrapper env.traces env.traceFile
          = false := by
        rw [hr]
        cases hfl : env.traceFile with
        | absent => rfl
        | unreadable => rfl
        | loads v =>
          rw [hfl] at hrec
          simp only [ImportToArize.traceFileRecovers] at hrec
          simp [ImportToArize.import_traces_wrapper, hrec]
      simp [ImportToArize.main, hkey, hspace, hsel, hyes, hg, hw,
        ite_append_left, ite_append_right, mem_ite_list] <;>
        simp only [Bool.eq_false_iff] <;> tauto
    · have hw : ImportToArize.import_proj_wrapper env.evaluations
          = false := by rw [hr]; rfl
      simp [ImportToArize.main, hkey, hspace, hsel, hyes, hg, hw,
        ite_append_left, ite_append_right, mem_ite_list] <;>
        simp only [Bool.eq_false_iff] <;> tauto
    · simp [ImportToArize.main, hkey, hspace, hsel, hyes, hg, hr,
        ite_append_left, ite_append_right, mem_ite_list] <;>
        simp only [Bool.eq_false_iff] <;> tauto
    · have hw : ImportToArize.import_proj_wrapper env.annotations
          = false := by rw [hr]; rfl
      simp [ImportToArize.main, hkey, hspace, hsel, hyes, hg, hy, hw,
        ite_append_left, ite_append_right, mem_ite_list] <;>
        simp only [Bool.eq_false_iff] <;> tauto
    all_goals
      rw [import_stages_plan args env hkey hspace hsel hyes]
      simp [hg, mem_ite_list]

/-- Concrete arguments for the C6 witness: an import run and an export
run with `--all`. -/
def c6wArgs : ImportToArize.Args :=
  { api_key := some "key", space_id := some "space", all := true,
    datasets := false, traces := false, annotations := false,
    evaluations := false, prompts := false, setup_annotations := false }

/-- Concrete environment for the C6 witness: every importer raises, the
results file is absent, the setup guide fails, and the operator answers
yes to both prompts. -/
def c6wEnv : ImportToArize.Env :=
  { datasets := ImportToArize.ImpListOutcome.raises,
    prompts := ImportToArize.ImpListOutcome.raises,
    traces := ImportToArize.TraceOutcome.raises,
    traceFile := ImportToArize.TraceFile.absent,
    evaluations := ImportToArize.ImpProjOutcome.raises,
    annotations := ImportToArize.ImpProjOutcome.raises,
    setupOk := false, traceAnswer := "yes", annotAnswer := "yes" }

/-- Concrete export arguments for the C6 witness. -/
def c6wExpArgs : ExportAllProjects.Args :=
  { base_url := some "http://localhost:6006", api_key := none, all := true,
    datasets := false, prompts := false, projects := false, traces := false,
    annotations := false, evaluations := false }

/-- Concrete export environment for the C6 witness: the dataset exporter
raises, the rest succeed. -/
def c6wExpEnv : ExportAllProjects.Env :=
  { datasets := ExportAllProjects.ExpOutcome.raises,
    prompts := ExportAllProjects.ExpOutcome.returns [⟨"exported"⟩],
    traces := ExportAllProjects.ExpDictOutcome.returns
      [("project1", ⟨"exported"⟩)],
    annotations := ExportAllProjects.ExpDictOutcome.returns
      [("project1", ⟨"exported"⟩)],
    evaluations := ExportAllProjects.ExpDictOutcome.returns
      [("project1", ⟨"exported"⟩)] }

theorem C6_amended_witness :
    c6wExpEnv.datasets = ExportAllProjects.ExpOutcome.raises ∧
    yesAnswer c6wEnv.traceAnswer = true ∧
    "datasets" ∈ (ExportAllProjects.main c6wExpArgs c6wExpEnv).failed ∧
    "prompts" ∈ (ExportAllProjects.main c6wExpArgs c6wExpEnv).stages ∧
    "evaluations" ∈ (ExportAllProjects.main c6wExpArgs c6wExpEnv).stages ∧
    "datasets" ∈ (ImportToArize.main c6wArgs c6wEnv).failed ∧
    "traces" ∈ (ImportToArize.main c6wArgs c6wEnv).failed ∧
    "evaluations" ∈ (ImportToArize.main c6wArgs c6wEnv).failed ∧
    "annotation setup" ∈ (ImportToArize.main c6wArgs c6wEnv).failed ∧
    "annotations" ∈ (ImportToArize.main c6wArgs c6wEnv).failed ∧
    "annotations" ∈ (ImportToArize.main c6wArgs c6wEnv).stages := by
  have he := C6_amended_raise_recorded_pipeline_continues.1 c6wExpArgs
    c6wExpEnv (by decide) (by decide)
  have hi := C6_amended_raise_recorded_pipeline_continues.2 c6wArgs c6wEnv
    (by decide) (by decide) (by decide) (by decide)
  refine ⟨rfl, by decide, he.1 (by decide) rfl, he.2.2.2.2.2.2.1 (by decide),
    he.2.2.2.2.2.2.2.2.2 (by decide), hi.1 (by decide) rfl,
    hi.2.2.1 (by decide) rfl (by decide), hi.2.2.2.1 (by decide) rfl,
    hi.2.2.2.2.1 (by decide) rfl, hi.2.2.2.2.2.1 (by decide) (by decide) rfl,
    hi.2.2.2.2.2.2.2.2.2.2 (by decide)⟩

end Phoenix2Ax
